import Mathlib

/-!
Verification development for the unitedtribes content pipeline.

The Python sources under src/shared (models.py, validator.py, fetcher.py,
extractor.py, s3_uploader.py) and src/articles/base_scraper.py are embedded
shallowly below: dataclasses become structures, methods become functions,
floats used as quality scores become rationals, the external world (HTTP,
object store, SHA-256, wall clock) is passed in as explicit data.
-/

set_option maxRecDepth 40000

attribute [local semireducible] Rat.inv Rat.mul Rat.add Rat.sub Rat.ofScientific

/-! ## Python string primitives, modelled on `List Char` -/

/-- Whitespace characters matched by the Python regex class backslash-s
and by `str.split()` / `str.strip()` (ASCII subset, which is all the
pipeline ever feeds in). -/
def isPySpace (c : Char) : Bool :=
  c == ' ' || c == '\t' || c == '\n' || c == '\r' || c == '\x0b' || c == '\x0c'

/-- Tests whether `needle` is a prefix of `hay`. -/
def listIsPref : List Char → List Char → Bool
  | [], _ => true
  | _ :: _, [] => false
  | n :: ns, h :: hs => n == h && listIsPref ns hs

/-- Python `needle in hay` for strings (substring containment). -/
def hasSubList (hay needle : List Char) : Bool :=
  match hay with
  | [] => needle.isEmpty
  | _ :: t => listIsPref needle hay || hasSubList t needle

/-- Index of the first occurrence of `needle` in `hay`, if any. -/
def subIdx? (hay needle : List Char) : Option Nat :=
  match hay with
  | [] => if needle.isEmpty then some 0 else none
  | _ :: t =>
    if listIsPref needle hay then some 0 else (subIdx? t needle).map (· + 1)

/-- The remainder of `hay` after the first occurrence of `needle`. -/
def restAfterSub (hay needle : List Char) : Option (List Char) :=
  match hay with
  | [] => if needle.isEmpty then some [] else none
  | _ :: t =>
    if listIsPref needle hay then some (hay.drop needle.length)
    else restAfterSub t needle

/-- Python `str.split(sep)` for a single-character separator (keeps empties). -/
def splitChar (c : Char) : List Char → List (List Char)
  | [] => [[]]
  | x :: t =>
    let r := splitChar c t
    if x == c then [] :: r
    else
      match r with
      | h :: rest => (x :: h) :: rest
      | [] => [[x]]

/-- Python `str.lower()` (ASCII). -/
def pyLower (s : String) : String := String.mk (s.data.map Char.toLower)

/-- Python `needle in hay` on `String`. -/
def strContainsSub (hay needle : String) : Bool := hasSubList hay.data needle.data

/-- Python `s[:n]` on `String` (character count, as Python len/slices). -/
def pyTake (n : Nat) (s : String) : String := String.mk (s.data.take n)

/-- Python `str.strip()`. -/
def pyStrip (s : String) : String :=
  String.mk (((s.data.dropWhile isPySpace).reverse.dropWhile isPySpace).reverse)

/-- Helper for `pyWords`: accumulates the current word reversed. -/
def pyWordsGo (cur : List Char) : List Char → List (List Char)
  | [] => if cur.isEmpty then [] else [cur.reverse]
  | c :: t =>
    if isPySpace c then
      if cur.isEmpty then pyWordsGo [] t else cur.reverse :: pyWordsGo [] t
    else pyWordsGo (c :: cur) t

/-- Python `str.split()` with no argument: maximal non-whitespace runs. -/
def pyWords (l : List Char) : List (List Char) := pyWordsGo [] l

/-- Python `str.replace(a, b)` for single characters. -/
def pyReplaceChar (a b : Char) (s : String) : String :=
  String.mk (s.data.map (fun c => if c == a then b else c))

/-- Zero-padded 2-digit rendering (strftime %m, %d, %H, %M, %S). -/
def pad2 (n : Nat) : String := if n < 10 then "0" ++ toString n else toString n

/-- Zero-padded 4-digit rendering (strftime %Y). -/
def pad4 (n : Nat) : String :=
  if n < 10 then "000" ++ toString n
  else if n < 100 then "00" ++ toString n
  else if n < 1000 then "0" ++ toString n
  else toString n

/-- Python `"%03d" % n` as used for the collision counter. -/
def pad3 (n : Nat) : String :=
  if n < 10 then "00" ++ toString n
  else if n < 100 then "0" ++ toString n
  else toString n

/-- Models `urlparse(u)` having both a scheme and a netloc: a nonempty
scheme before the first `://`, and a nonempty host after it. -/
def hasSchemeAndNetloc (u : String) : Bool :=
  match subIdx? u.data ("://".data) with
  | none => false
  | some i =>
    decide (1 ≤ i) && !(((u.data.drop (i + 3)).takeWhile (fun c => c != '/')).isEmpty)

/-- Numeric value of a two-digit string fragment. -/
def twoDigitVal (a b : Char) : Nat := (a.toNat - 48) * 10 + (b.toNat - 48)

/-- Modelled approximation of `datetime.fromisoformat` succeeding on the
string (after the code replaces a trailing Z with +00:00): a YYYY-MM-DD
date, optionally followed by a T or space and an HH:MM[:SS] time. No claim
below depends on the finer points of CPython date parsing. -/
def isoDateOk (s : String) : Bool :=
  let cs := s.data
  let dateOk (d : List Char) : Bool :=
    match d with
    | [y1, y2, y3, y4, '-', m1, m2, '-', d1, d2] =>
      [y1, y2, y3, y4, m1, m2, d1, d2].all Char.isDigit &&
      decide (1 ≤ twoDigitVal m1 m2) && decide (twoDigitVal m1 m2 ≤ 12) &&
      decide (1 ≤ twoDigitVal d1 d2) && decide (twoDigitVal d1 d2 ≤ 31)
    | _ => false
  let timeOk (t : List Char) : Bool :=
    match t with
    | [h1, h2, ':', n1, n2] => [h1, h2, n1, n2].all Char.isDigit
    | [h1, h2, ':', n1, n2, ':', s1, s2] => [h1, h2, n1, n2, s1, s2].all Char.isDigit
    | _ => false
  if cs.length = 10 then dateOk cs
  else
    dateOk (cs.take 10) &&
    (match cs.drop 10 with
     | 'T' :: t => timeOk t
     | ' ' :: t => timeOk t
     | _ => false)

/-! ## Data model (src/shared/models.py) -/

/-- models.SourceAttribution. `episode_info` is a free-form dict in the
source, unread by any code under verification, and is omitted. -/
structure SourceAttribution where
  source : String
  title : String
  url : String
  author : Option String := none
  publication_date : Option String := none
  publication_type : String := "article"
  content_type : Option String := none
deriving DecidableEq

/-- SourceAttribution.to_citation_format. -/
def to_citation_format (a : SourceAttribution) : String :=
  let base := "[Source: \"" ++ a.source ++ "\""
  let base :=
    if a.title ≠ "" ∧ a.title.length < 60 then base ++ ", \"" ++ a.title ++ "\""
    else base
  base ++ "]"

/-- A `datetime` value by the fields the pipeline formats with strftime. -/
structure PyDateTime where
  year : Nat
  month : Nat
  day : Nat
  hour : Nat
  minute : Nat
  second : Nat
deriving DecidableEq

/-- strftime "%Y/%m/%d". -/
def fmtDatePath (d : PyDateTime) : String :=
  pad4 d.year ++ "/" ++ pad2 d.month ++ "/" ++ pad2 d.day

/-- strftime "%Y%m%d_%H%M". -/
def fmtMinuteStamp (d : PyDateTime) : String :=
  pad4 d.year ++ pad2 d.month ++ pad2 d.day ++ "_" ++ pad2 d.hour ++ pad2 d.minute

/-- strftime "%Y%m%d_%H%M%S". -/
def fmtSecondStamp (d : PyDateTime) : String :=
  fmtMinuteStamp d ++ pad2 d.second

/-- models.ScrapedContent. `content_type` carries the ContentType enum
value string. `source_attribution` is non-optional here: with a None
attribution, `validate_scraped_content` in the source raises from
`to_v3_format` before producing any result, so every record the claims
range over carries an attribution block. -/
structure ScrapedContent where
  id : String
  url : String
  title : String
  content : String
  content_type : String
  source_attribution : SourceAttribution
  scraped_at : PyDateTime
  confidence_score : ℚ
  word_count : Nat
  extraction_method : String
  validation_passed : Bool
  s3_key : Option String
  content_hash : Option String
deriving DecidableEq

/-- ScrapedContent construction followed by `__post_init__`: word count and
content hash are derived from a nonempty body, and the storage key is
derived from the attribution source, the capture date and the hash.
SHA-256 is external cryptography, so the hex digest function is passed in
as `sha256hex`. -/
def mkScrapedContent (sha256hex : String → String)
    (id url title content content_type : String) (attr : SourceAttribution)
    (scraped_at : PyDateTime) (confidence_score : ℚ)
    (extraction_method : String) : ScrapedContent :=
  let word_count := if content ≠ "" then (pyWords content.data).length else 0
  let content_hash := if content ≠ "" then some (pyTake 16 (sha256hex content)) else none
  let s3_key :=
    "scraped-content/" ++ pyReplaceChar ' ' '_' (pyLower attr.source) ++ "/" ++
      fmtDatePath scraped_at ++ "/content-" ++ content_hash.getD "None" ++ ".json"
  { id := id, url := url, title := title, content := content
    content_type := content_type, source_attribution := attr
    scraped_at := scraped_at, confidence_score := confidence_score
    word_count := word_count, extraction_method := extraction_method
    validation_passed := false, s3_key := some s3_key
    content_hash := content_hash }

/-- models.ScrapingBatch. The manifest key, unread by the claims under
check, is omitted. `source` carries the Source enum value string
(None when absent). -/
structure ScrapingBatch where
  batch_id : String
  source : Option String
  content_items : List ScrapedContent
  total_discovered : Nat
  total_scraped : Nat
  success_rate : ℚ
deriving DecidableEq

/-- ScrapingBatch construction followed by `__post_init__`. -/
def mkScrapingBatch (batch_id : String) (source : Option String)
    (content_items : List ScrapedContent) (total_discovered : Nat) : ScrapingBatch :=
  { batch_id := batch_id, source := source, content_items := content_items
    total_discovered := total_discovered
    total_scraped := content_items.length
    success_rate :=
      if 0 < total_discovered then (content_items.length : ℚ) / total_discovered else 0 }

/-! ## Validator (src/shared/validator.py) -/

/-- validator.ValidationResult. The free-form `metadata` dict, unread by
every claim under check, is omitted. -/
structure ValidationResult where
  passed : Bool
  score : ℚ
  errors : List String
  warnings : List String
deriving DecidableEq

/-- A suspicious-pattern regex from ContentValidator, kept as its source
text plus its literal segments: every pattern in the fixed list is either
one literal, or two literals separated by a dot-star. -/
structure RegexLite where
  src : String
  segs : List String
deriving DecidableEq

/-- Models `re.search("a.*b", s)` for literal `a`, `b` without newlines: the
dot does not match a newline, so a match lives inside one line — `b`
occurs after the first occurrence of `a` on some line. -/
def matchesDotStar (hay a b : List Char) : Bool :=
  (splitChar '\n' hay).any fun line =>
    match restAfterSub line a with
    | some rest => hasSubList rest b
    | none => false

/-- Models `re.search(p, s)` for the pattern shapes in the suspicious list. -/
def regexMatches (p : RegexLite) (s : String) : Bool :=
  match p.segs with
  | [x] => strContainsSub s x
  | [a, b] => matchesDotStar s.data a.data b.data
  | _ => false

/-- ContentValidator.suspicious_patterns. -/
def suspicious_patterns : List RegexLite :=
  [⟨"404 not found", ["404 not found"]⟩,
   ⟨"access denied", ["access denied"]⟩,
   ⟨"please enable javascript", ["please enable javascript"]⟩,
   ⟨"robot.*detected", ["robot", "detected"]⟩,
   ⟨"captcha", ["captcha"]⟩,
   ⟨"cloudflare", ["cloudflare"]⟩,
   ⟨"subscription required", ["subscription required"]⟩,
   ⟨"sign in to continue", ["sign in to continue"]⟩,
   ⟨"this content is not available", ["this content is not available"]⟩]

/-- ContentValidator.valid_sources. -/
def valid_sources : List String :=
  ["Billboard", "Rolling Stone", "Pitchfork", "NPR", "Sound Opinions",
   "All Songs Considered", "Fresh Air", "Spotify", "Apple Podcasts"]

/-- The music keyword list shared by `_validate_music_relevance` and
`BaseArticleScraper._is_music_relevant`. -/
def music_keywords : List String :=
  ["music", "album", "song", "artist", "band", "musician", "singer",
   "concert", "tour", "festival", "record", "recording", "studio",
   "genre", "jazz", "rock", "pop", "hip-hop", "classical", "folk",
   "guitar", "piano", "drums", "vocals", "lyrics", "melody"]

/-- Python `sum(1 for keyword in kws if keyword in txt)`. -/
def countKw (txt : String) (kws : List String) : Nat :=
  (kws.filter fun k => strContainsSub txt k).length

/-- The factor `if b then c else 1` that a conditional `score *= c`
contributes in the sequential accumulation the validator uses. -/
def iteF (b : Bool) (c : ℚ) : ℚ := if b then c else 1

/-- ContentValidator._validate_structure. The required-field check reads
the `to_v3_format` dict; its values for the five required keys are the
`id`, `url`, `title`, `content` fields (falsy iff empty) and the
attribution block (always present here, hence truthy). -/
def _validate_structure (c : ScrapedContent) : ValidationResult :=
  let errs :=
    (if c.id = "" then ["Missing required field: id"] else []) ++
    (if c.url = "" then ["Missing required field: url"] else []) ++
    (if c.title = "" then ["Missing required field: title"] else []) ++
    (if c.content = "" then ["Missing required field: content"] else []) ++
    (if c.source_attribution.source = "" then ["Missing source attribution field: source"] else []) ++
    (if c.source_attribution.title = "" then ["Missing source attribution field: title"] else []) ++
    (if c.source_attribution.url = "" then ["Missing source attribution field: url"] else []) ++
    (if ¬(0 ≤ c.confidence_score ∧ c.confidence_score ≤ 1) then
      ["Confidence score must be between 0.0 and 1.0"] else []) ++
    (if c.url ≠ "" ∧ ¬(hasSchemeAndNetloc c.url = true) then ["Invalid URL format"] else [])
  { passed := errs.isEmpty, score := if errs.isEmpty then 1 else 0
    errors := errs, warnings := [] }

/-- ContentValidator._validate_content_quality. The score accumulates by
sequential `score *= f` steps in the source; it is written here as the
corresponding left-associated product. With an empty body the source
raises ZeroDivisionError at the text-ratio step; rational division makes
the model total there, and the theorems that need Python fidelity carry a
nonempty-content hypothesis. -/
def _validate_content_quality (c : ScrapedContent) : ValidationResult :=
  let n := c.content.length
  let tooShort := decide (n < 200)
  let tooLong := decide (n > 50000)
  let titleShort := decide (c.title.length < 5)
  let titleLong := decide (c.title.length > 200)
  let firstSusp := suspicious_patterns.find? fun p => regexMatches p (pyLower c.content)
  let sentences := splitChar '.' c.content.data
  let repetitive :=
    decide (sentences.length > 10) &&
    decide ((sentences.dedup.length : ℚ) / (sentences.length : ℚ) < 1/2)
  let keptChars := c.content.data.filter fun ch => ch.isAlpha || isPySpace ch
  let lowShare := decide (((keptChars.length : ℚ) / (n : ℚ)) < 3/5)
  let errs :=
    (if tooShort then ["Content too short: " ++ toString n ++ " chars (min: 200)"] else []) ++
    (if titleShort then ["Title too short: " ++ toString c.title.length ++ " chars"] else []) ++
    (match firstSusp with
     | some p => ["Suspicious content pattern detected: " ++ p.src]
     | none => [])
  let warns :=
    (if tooLong then ["Content very long: " ++ toString n ++ " chars"] else []) ++
    (if titleLong then ["Title very long"] else []) ++
    (if repetitive then ["Content appears repetitive"] else []) ++
    (if lowShare then ["Low text content ratio - may contain too much markup"] else [])
  let score :=
    ((((((1 * iteF tooShort ((3 : ℚ)/10)) * iteF tooLong (9/10)) * iteF titleShort (1/2)) *
      iteF titleLong (9/10)) * iteF firstSusp.isSome (1/5)) * iteF repetitive (4/5)) *
      iteF lowShare (9/10)
  { passed := errs.isEmpty, score := score, errors := errs, warnings := warns }

/-- ContentValidator._validate_source_attribution. The missing-attribution
branch is unreachable here (see ScrapedContent); `to_citation_format`
cannot raise, so the citation try/except error branch is dead. -/
def _validate_source_attribution (a : SourceAttribution) : ValidationResult :=
  let unknown := decide (a.source ∉ valid_sources)
  let citation := to_citation_format a
  let citShort := decide (citation.length < 10)
  let citLong := decide (citation.length > 150)
  let badUrl := decide (a.url ≠ "") && !(hasSchemeAndNetloc a.url)
  let badDate :=
    match a.publication_date with
    | some d => !(isoDateOk d)
    | none => false
  let errs :=
    (if citShort then ["Citation format too short"] else []) ++
    (if badUrl then ["Invalid attribution URL"] else [])
  let warns :=
    (if unknown then ["Unknown source: " ++ a.source] else []) ++
    (if citLong then ["Citation format very long"] else []) ++
    (if badDate then ["Invalid publication date format"] else [])
  let score := ((1 * iteF unknown ((9 : ℚ)/10)) * iteF citLong (9/10)) * iteF badDate (9/10)
  { passed := errs.isEmpty, score := score, errors := errs, warnings := warns }

/-- ContentValidator._validate_music_relevance (warning-only check). -/
def _validate_music_relevance (c : ScrapedContent) : ValidationResult :=
  let mentions := countKw (pyLower (c.title ++ " " ++ c.content)) music_keywords
  let kwZero := decide (mentions = 0)
  let kwFew := decide (mentions < 3)
  let warns :=
    if kwZero then ["No music-related keywords found"]
    else if kwFew then ["Limited music relevance"] else []
  let score : ℚ := if kwZero then 1 * (1/2) else if kwFew then 1 * (4/5) else 1
  { passed := true, score := score, errors := [], warnings := warns }

/-- ContentValidator._validate_data_lake_compatibility, reduced to its
live checks: in the model serialization of `to_v3_format` always succeeds
and the three required v3 keys are always present in the produced dict, so
compatibility comes down to the citation-shape check. Returns
(compatible, errors). -/
def _validate_data_lake_compatibility (c : ScrapedContent) : Bool × List String :=
  let citOk := listIsPref ("[Source:".data) (to_citation_format c.source_attribution).data
  (citOk, if citOk then [] else ["Invalid citation format"])

/-- The error list accumulated by validate_scraped_content, in source
order: structure, quality, attribution, lake compatibility. -/
def validate_errs (c : ScrapedContent) : List String :=
  (if (_validate_structure c).passed then [] else (_validate_structure c).errors) ++
  (if (_validate_content_quality c).passed then []
   else (_validate_content_quality c).errors) ++
  (if (_validate_source_attribution c.source_attribution).passed then []
   else (_validate_source_attribution c.source_attribution).errors) ++
  (if (_validate_data_lake_compatibility c).1 then []
   else (_validate_data_lake_compatibility c).2)

/-- The warning list accumulated by validate_scraped_content: quality
warnings then relevance warnings. -/
def validate_warns (c : ScrapedContent) : List String :=
  (_validate_content_quality c).warnings ++ (_validate_music_relevance c).warnings

/-- The composite score of validate_scraped_content: the sequential
product of the sub-check contributions, in source order. -/
def validate_score (c : ScrapedContent) : ℚ :=
  ((((1 * iteF (!(_validate_structure c).passed) ((3 : ℚ)/10)) *
    (_validate_content_quality c).score) *
    (_validate_source_attribution c.source_attribution).score) *
    (_validate_music_relevance c).score) *
    iteF (!(_validate_data_lake_compatibility c).1) (1/5)

/-- ContentValidator.validate_scraped_content. -/
def validate_scraped_content (c : ScrapedContent) : ValidationResult :=
  { passed := (validate_errs c).isEmpty && decide ((1 : ℚ)/2 < validate_score c)
    score := validate_score c, errors := validate_errs c, warnings := validate_warns c }

/-! ## Condition flags for the multiplicative score -/

/-- The fourteen score-scaling conditions of `validate_scraped_content`,
one flag per conditional `score *= f` in the source. -/
structure VFlags where
  structFail : Bool
  contentShort : Bool
  contentLong : Bool
  titleShort : Bool
  titleLong : Bool
  suspicious : Bool
  repetitive : Bool
  lowShare : Bool
  unknownSource : Bool
  citationLong : Bool
  badDate : Bool
  kwZero : Bool
  kwFew : Bool
  lakeFail : Bool
deriving DecidableEq

/-- The flags a given record triggers, each condition written exactly as
the corresponding sub-validator computes it. -/
def flagsOf (c : ScrapedContent) : VFlags where
  structFail := !(_validate_structure c).passed
  contentShort := decide (c.content.length < 200)
  contentLong := decide (c.content.length > 50000)
  titleShort := decide (c.title.length < 5)
  titleLong := decide (c.title.length > 200)
  suspicious :=
    (suspicious_patterns.find? fun p => regexMatches p (pyLower c.content)).isSome
  repetitive :=
    decide ((splitChar '.' c.content.data).length > 10) &&
    decide ((((splitChar '.' c.content.data).dedup.length : ℚ) /
      ((splitChar '.' c.content.data).length : ℚ)) < 1/2)
  lowShare :=
    decide ((((c.content.data.filter fun ch => ch.isAlpha || isPySpace ch).length : ℚ) /
      (c.content.length : ℚ)) < 3/5)
  unknownSource := decide (c.source_attribution.source ∉ valid_sources)
  citationLong := decide ((to_citation_format c.source_attribution).length > 150)
  badDate :=
    match c.source_attribution.publication_date with
    | some d => !(isoDateOk d)
    | none => false
  kwZero := decide (countKw (pyLower (c.title ++ " " ++ c.content)) music_keywords = 0)
  kwFew := decide (countKw (pyLower (c.title ++ " " ++ c.content)) music_keywords < 3)
  lakeFail := !(_validate_data_lake_compatibility c).1

/-- Quality sub-score as a function of the flags. -/
def qFactor (f : VFlags) : ℚ :=
  ((((((1 * iteF f.contentShort ((3 : ℚ)/10)) * iteF f.contentLong (9/10)) *
    iteF f.titleShort (1/2)) * iteF f.titleLong (9/10)) * iteF f.suspicious (1/5)) *
    iteF f.repetitive (4/5)) * iteF f.lowShare (9/10)

/-- Attribution sub-score as a function of the flags. -/
def aFactor (f : VFlags) : ℚ :=
  ((1 * iteF f.unknownSource ((9 : ℚ)/10)) * iteF f.citationLong (9/10)) *
    iteF f.badDate (9/10)

/-- Relevance sub-score as a function of the flags (the source uses
if / elif, so a zero-keyword record takes the 1/2 factor even though it
also has fewer than three keywords). -/
def rFactor (f : VFlags) : ℚ :=
  if f.kwZero then 1 * (1/2) else if f.kwFew then 1 * (4/5) else 1

/-- The composite validation score as a function of the flags alone. -/
def scoreFlags (f : VFlags) : ℚ :=
  ((((1 * iteF f.structFail ((3 : ℚ)/10)) * qFactor f) * aFactor f) * rFactor f) *
    iteF f.lakeFail (1/5)

/-- Pointwise implication: every condition `f` triggers, `g` also triggers. -/
def flagsLe (f g : VFlags) : Prop :=
  (f.structFail = true → g.structFail = true) ∧
  (f.contentShort = true → g.contentShort = true) ∧
  (f.contentLong = true → g.contentLong = true) ∧
  (f.titleShort = true → g.titleShort = true) ∧
  (f.titleLong = true → g.titleLong = true) ∧
  (f.suspicious = true → g.suspicious = true) ∧
  (f.repetitive = true → g.repetitive = true) ∧
  (f.lowShare = true → g.lowShare = true) ∧
  (f.unknownSource = true → g.unknownSource = true) ∧
  (f.citationLong = true → g.citationLong = true) ∧
  (f.badDate = true → g.badDate = true) ∧
  (f.kwZero = true → g.kwZero = true) ∧
  (f.kwFew = true → g.kwFew = true) ∧
  (f.lakeFail = true → g.lakeFail = true)

instance (f g : VFlags) : Decidable (flagsLe f g) := by
  unfold flagsLe
  infer_instance

/-! ## Batch validation and the safety gate -/

/-- ContentValidator.validate_batch. The formatted success-rate and
average-score figures interpolated into the two batch-level messages are
elided from the message text (no claim reads them); the item index
interpolated into per-item messages is kept. -/
def validate_batch (b : ScrapingBatch) : ValidationResult :=
  if b.content_items.isEmpty then
    { passed := false, score := 0, errors := ["Batch contains no content items"],
      warnings := [] }
  else
    let results := b.content_items.map validate_scraped_content
    let item_scores := results.map (·.score)
    let total_errors := results.countP fun r => !r.passed
    let itemErrors :=
      (results.enum.map fun p =>
        if p.2.passed then []
        else p.2.errors.map fun e => "Item " ++ toString p.1 ++ ": " ++ e).flatten
    let itemWarnings :=
      (results.enum.map fun p =>
        p.2.warnings.map fun w => "Item " ++ toString p.1 ++ ": " ++ w).flatten
    let n := b.content_items.length
    let avg_score := item_scores.sum / (n : ℚ)
    let success_rate := ((n - total_errors : ℕ) : ℚ) / (n : ℚ)
    let errs :=
      itemErrors ++
      (if success_rate < 7/10 then ["Batch success rate too low"] else []) ++
      (if avg_score < 3/5 then ["Batch average quality too low"] else [])
    { passed := errs.isEmpty, score := avg_score * success_rate,
      errors := errs, warnings := itemWarnings }

/-- The "batch too large" message of the safety gate at a given size. -/
def batchTooLargeMsg (n : Nat) : String :=
  "Batch too large: " ++ toString n ++ " items (max: 100)"

/-- The mixed-source message of the safety gate. -/
def mixedSourcesMsg : String := "Mixed sources in single batch - should be separated"

/-- SafetyChecker.pre_processing_safety_check. Every item here carries an
attribution block, so the source filter `if item.source_attribution` keeps
all items. -/
def pre_processing_safety_check (b : ScrapingBatch) : Bool × List String :=
  let batch_result := validate_batch b
  let errs1 := if batch_result.passed then [] else batch_result.errors
  let errs2 :=
    if b.content_items.length > 100 then [batchTooLargeMsg b.content_items.length] else []
  let sources := (b.content_items.map fun i => i.source_attribution.source).dedup
  let errs3 := if 1 < sources.length then [mixedSourcesMsg] else []
  let errs := errs1 ++ errs2 ++ errs3
  (errs.isEmpty, errs)

/-! ## Artifact placer (src/shared/s3_uploader.py) -/

/-- The apostrophe character (used by the artist content patterns). -/
def apos : Char := Char.ofNat 39

/-- S3ContentUploader._sanitize_artist_name: lowercase, keep only
lowercase letters, digits and whitespace, collapse whitespace runs to
single underscores after stripping, truncate to 50 characters, strip
surrounding underscores, and never return the empty string. -/
def _sanitize_artist_name (artist : String) : String :=
  let kept := (pyLower artist).data.filter fun c =>
    (decide ('a' ≤ c) && decide (c ≤ 'z')) || c.isDigit || isPySpace c
  let joined := List.intercalate ['_'] (pyWords kept)
  let cut := joined.take 50
  let stripped := ((cut.dropWhile fun c => c == '_').reverse.dropWhile fun c => c == '_').reverse
  if stripped.isEmpty then "unknown_artist" else String.mk stripped

/-- Uploader artist pattern 1, a caret, a lazy non-colon group, then
optional whitespace and a dash or colon: the group is the text before the
first dash or colon in the title, with the whitespace run abutting that
separator dropped; no separator, no match. -/
def artistPattern1 (title : String) : Option String :=
  match title.data.findIdx? fun c => c == '-' || c == ':' with
  | none => none
  | some j =>
    let grp := ((title.data.take j).reverse.dropWhile isPySpace).reverse
    if grp.isEmpty then none else some (String.mk grp)

/-- Uploader artist pattern 2, a double-quoted group: the first nonempty
text between two double quotes. -/
def artistPattern2 (title : String) : Option String :=
  match splitChar '"' title.data with
  | _ :: inner :: _ :: _ => if inner.isEmpty then none else some (String.mk inner)
  | _ => none

/-- Take one-or-more whitespace: the rest after a nonempty leading
whitespace run, if there is one. -/
def afterWsPlus (l : List Char) : Option (List Char) :=
  match l with
  | c :: t => if isPySpace c then some (t.dropWhile isPySpace) else none
  | [] => none

/-- The rest after a leading keyword from the list, if one matches. -/
def afterKeyword (kws : List String) (l : List Char) : Option (List Char) :=
  kws.findSome? fun k => if listIsPref k.data l then some (l.drop k.data.length) else none

/-- Uploader artist pattern 3, review-or-interview, colon, optional
whitespace, then a group up to a comma or newline. The patterns run
case-insensitively and the result is immediately sanitized (which
lowercases), so the model works on the lowered title throughout. -/
def artistPattern3 (lowerTitle : List Char) : Option String :=
  match lowerTitle with
  | [] => none
  | _ :: t =>
    match afterKeyword ["review:", "interview:"] lowerTitle with
    | some rest =>
      let grp := (rest.dropWhile isPySpace).takeWhile fun c => !(c == ',' || c == '\n')
      if grp.isEmpty then none else some (String.mk grp)
    | none => artistPattern3 t

/-- Uploader artist pattern 4, with-or-featuring, one-or-more whitespace,
then a group up to a comma or newline. -/
def artistPattern4 (lowerTitle : List Char) : Option String :=
  match lowerTitle with
  | [] => none
  | _ :: t =>
    match afterKeyword ["with", "featuring"] lowerTitle >>= afterWsPlus with
    | some rest =>
      let grp := rest.takeWhile fun c => !(c == ',' || c == '\n')
      if grp.isEmpty then none else some (String.mk grp)
    | none => artistPattern4 t

/-- Is the character in the class lowercase-letter-or-whitespace used by
the three body patterns. -/
def isLowerOrWs (c : Char) : Bool :=
  (decide ('a' ≤ c) && decide (c ≤ 'z')) || isPySpace c

/-- Body pattern: a lowercase-or-whitespace group, apostrophe-s,
whitespace, new-or-latest-or-upcoming, whitespace, album-or-single-or-ep.
`pre` holds the current group candidate reversed. -/
def contentPatternPoss (pre rest : List Char) : Option String :=
  match rest with
  | [] => none
  | c :: t =>
    (if c == apos ∧ ¬pre.isEmpty then
      match t with
      | 's' :: t2 =>
        match afterWsPlus t2 >>= afterKeyword ["new", "latest", "upcoming"] >>=
              afterWsPlus >>= afterKeyword ["album", "single", "ep"] with
        | some _ => some (String.mk pre.reverse)
        | none => none
      | _ => none
    else none).orElse fun _ =>
      contentPatternPoss (if isLowerOrWs c then c :: pre else []) t

/-- Drop the final word and then trailing whitespace: the value a greedy
lowercase-or-whitespace group keeps when the regex requires trailing
whitespace after it. -/
def dropLastWord (run : List Char) : List Char :=
  ((run.reverse.dropWhile fun c => !(isPySpace c)).dropWhile isPySpace).reverse

/-- Body pattern: a lowercase-or-whitespace group, whitespace, then
releases-or-announces-or-drops followed by whitespace. -/
def contentPatternVerb (pre rest : List Char) : Option String :=
  match rest with
  | [] => none
  | c :: t =>
    (match afterKeyword ["releases", "announces", "drops"] rest with
     | some after =>
       if (afterWsPlus after).isSome ∧ isPySpace (pre.headD 'x') ∧
          ¬(pre.dropWhile isPySpace).isEmpty then
         some (String.mk ((pre.dropWhile isPySpace).reverse))
       else none
     | none => none).orElse fun _ =>
      contentPatternVerb (if isLowerOrWs c then c :: pre else []) t

/-- Body pattern: musician-or-artist-or-singer, whitespace, then a
lowercase-or-whitespace group followed by whitespace. -/
def contentPatternRole (rest : List Char) : Option String :=
  match rest with
  | [] => none
  | _ :: t =>
    match afterKeyword ["musician", "artist", "singer"] rest >>= afterWsPlus with
    | some after =>
      let run := after.takeWhile isLowerOrWs
      let grp := dropLastWord run
      if grp.isEmpty then contentPatternRole t else some (String.mk grp)
    | none => contentPatternRole t

/-- The loop over the three body patterns with the three-word guard: a
match longer than three words falls through to the next pattern. -/
def artistFromContent (contentStart : String) : Option String :=
  let fits (s : String) : Option String :=
    if (pyWords (pyStrip s).data).length ≤ 3 then some (pyStrip s) else none
  ((contentPatternPoss [] contentStart.data).bind fits).orElse fun _ =>
    ((contentPatternVerb [] contentStart.data).bind fits).orElse fun _ =>
      (contentPatternRole contentStart.data).bind fits

/-- S3ContentUploader._extract_artist_name. The source first builds a
prefix-stripped lowercase copy of the title, but then searches the
original title, so that copy is dead and not modelled. Title patterns run
with IGNORECASE and feed straight into `_sanitize_artist_name`, which
lowercases; the model therefore matches on the lowered title, which yields
the same sanitized artist. -/
def _extract_artist_name (c : ScrapedContent) : String :=
  let lowerTitle := pyLower c.title
  match artistPattern1 lowerTitle with
  | some a => _sanitize_artist_name (pyStrip a)
  | none =>
  match artistPattern2 lowerTitle with
  | some a => _sanitize_artist_name (pyStrip a)
  | none =>
  match artistPattern3 lowerTitle.data with
  | some a => _sanitize_artist_name (pyStrip a)
  | none =>
  match artistPattern4 lowerTitle.data with
  | some a => _sanitize_artist_name (pyStrip a)
  | none =>
  match artistFromContent (pyLower (pyTake 500 c.content)) with
  | some a => _sanitize_artist_name a
  | none => _sanitize_artist_name ("various_" ++ pyLower c.source_attribution.source)

/-- S3ContentUploader.thematic_categories, in dict insertion order. -/
def thematic_categories : List (String × List String) :=
  [("review", ["review", "album review", "music review", "rating"]),
   ("interview", ["interview", "q&a", "talks about", "conversation with"]),
   ("news", ["news", "breaking", "announces", "released", "signs"]),
   ("feature", ["feature", "profile", "story", "deep dive"]),
   ("analysis", ["analysis", "breakdown", "explained", "history of"]),
   ("podcast", ["podcast", "episode", "fresh air", "sound opinions"])]

/-- S3ContentUploader._categorize_content. -/
def _categorize_content (c : ScrapedContent) : String :=
  let text := pyLower (c.title ++ " " ++ pyTake 500 c.content)
  match
    thematic_categories.findSome? fun cat =>
      if cat.2.any (fun p => strContainsSub text p) then some cat.1 else none
  with
  | some cat => cat
  | none => c.content_type

/-- S3ContentUploader._generate_safe_filename. -/
def _generate_safe_filename (c : ScrapedContent) : String :=
  let timestamp := fmtMinuteStamp c.scraped_at
  let hash8 :=
    if c.content_hash.getD "" = "" then "unknown" else pyTake 8 (c.content_hash.getD "")
  let titleKept := c.title.data.filter fun ch => ch.isAlphanum || isPySpace ch
  let title_part := (List.intercalate ['_'] (pyWords titleKept)).take 30
  let source := pyReplaceChar ' ' '_' (pyLower c.source_attribution.source)
  source ++ "_" ++ timestamp ++ "_" ++ hash8 ++ "_" ++ String.mk title_part ++ ".json"

/-- The derived base storage key of a record,
scraped-content/[artist]/[thematic]/[filename]. -/
def placerBaseKey (c : ScrapedContent) : String :=
  "scraped-content/" ++ _extract_artist_name c ++ "/" ++ _categorize_content c ++ "/" ++
    _generate_safe_filename c

/-- Python `base_key.rsplit(".", 1)`. Every placer key ends in .json, so
the no-dot case (a ValueError in the source) is unreachable and mapped to
an empty extension. -/
def rsplitDot (s : String) : String × String :=
  match (splitChar '.' s.data).reverse with
  | ext :: (h :: t) => (String.mk (List.intercalate ['.'] (h :: t).reverse), String.mk ext)
  | _ => (s, "")

/-- The suffixed variant key tried at a given counter value. -/
def variantKey (base_name ext : String) (counter : Nat) : String :=
  base_name ++ "_" ++ pad3 counter ++ "." ++ ext

/-- The timestamp fallback key appended after 99 failed counters. -/
def timestampFallbackKey (base_key ts : String) : String :=
  (rsplitDot base_key).1 ++ "_" ++ ts ++ "." ++ (rsplitDot base_key).2

/-- The while loop of `_generate_unique_key`: counters run from 1 while
strictly below 100, so `fuel` starts at 99; when fuel runs out the
timestamp key is returned without an existence check. -/
def uniqueLoop (storage : List String) (base_name ext : String) (counter fuel : Nat)
    (ts : String) : String :=
  match fuel with
  | 0 => base_name ++ "_" ++ ts ++ "." ++ ext
  | f + 1 =>
    let k := variantKey base_name ext counter
    if storage.contains k then uniqueLoop storage base_name ext (counter + 1) f ts else k

/-- S3ContentUploader._generate_unique_key, against a storage state given
as the list of existing keys; `ts` is strftime "%Y%m%d_%H%M%S" of the
wall clock at the call. -/
def _generate_unique_key (storage : List String) (base_key ts : String) : String :=
  uniqueLoop storage (rsplitDot base_key).1 (rsplitDot base_key).2 1 99 ts

/-- The key `_upload_content_item` writes to: the derived key when free,
else the collision-avoidance key. -/
def chooseUploadKey (storage : List String) (base_key ts : String) : String :=
  if storage.contains base_key then _generate_unique_key storage base_key ts else base_key

/-- S3ContentUploader._upload_content_item against an explicit storage
state. `putOk` tells whether the put_object call succeeds; on failure the
item returns None and the record keeps its previous key. Returns the
reported key, the updated record and the updated storage. -/
def _upload_content_item (c : ScrapedContent) (storage : List String) (putOk : Bool)
    (now : PyDateTime) : Option String × ScrapedContent × List String :=
  let s3_key := chooseUploadKey storage (placerBaseKey c) (fmtSecondStamp now)
  if putOk then (some s3_key, { c with s3_key := some s3_key }, s3_key :: storage)
  else (none, c, storage)

/-- Keys produced by a sequence of uploads that all derive the same base
key, one timestamp per upload, threading the storage state. -/
def uploadKeySeq (base_key : String) (tss : List String) (storage : List String) :
    List String × List String :=
  match tss with
  | [] => ([], storage)
  | ts :: rest =>
    let k := chooseUploadKey storage base_key ts
    let r := uploadKeySeq base_key rest (k :: storage)
    (k :: r.1, r.2)

/-! ## Fetcher (src/shared/fetcher.py) -/

/-- fetcher.FetchResult. The free-form `metadata` dict is omitted. -/
structure FetchResult where
  success : Bool
  content : Option String
  status_code : Option Int
  url : String
  final_url : String
  method : String
  error_message : Option String
deriving DecidableEq

/-- The predicate `fetch_with_fallbacks` accepts a strategy result with:
successful, with a truthy (nonempty) text whose length exceeds 500. -/
def goodFetch (r : FetchResult) : Bool :=
  r.success &&
    (match r.content with
     | some c => decide (c ≠ "") && decide (c.length > 500)
     | none => false)

/-- The failure result returned after every strategy was exhausted. -/
def allFetchFailed (url : String) : FetchResult :=
  { success := false, content := none, status_code := none, url := url,
    final_url := "", method := "none", error_message := some "All fetch strategies failed" }

/-- The strategy loop of EnhancedFetcher.fetch_with_fallbacks over a list
of per-strategy outcomes supplied by the network environment: `none`
marks a strategy that raised (the loop absorbs the exception), `some r`
the FetchResult it returned. -/
def fetchCascade (url : String) : List (Option FetchResult) → FetchResult
  | [] => allFetchFailed url
  | none :: rest => fetchCascade url rest
  | some r :: rest => if goodFetch r then r else fetchCascade url rest

/-- EnhancedFetcher.fetch_with_fallbacks: the fixed strategy order is
direct, archive-ph, archive-org, google-cache; the environment supplies
one outcome per strategy. -/
def fetch_with_fallbacks (url : String)
    (direct archivePh archiveOrg googleCache : Option FetchResult) : FetchResult :=
  fetchCascade url [direct, archivePh, archiveOrg, googleCache]

/-- The first acceptable strategy outcome, stated as a plain search. -/
def firstGoodFetch (outcomes : List (Option FetchResult)) : Option FetchResult :=
  outcomes.findSome? fun o =>
    match o with
    | some r => if goodFetch r then some r else none
    | none => none

/-! ## Extractor (src/shared/extractor.py) -/

/-- extractor.ExtractionResult. -/
structure ExtractionResult where
  success : Bool
  content : Option ScrapedContent
  confidence : ℚ
  method : String
  errors : List String
deriving DecidableEq

/-- The failure result when no extraction strategy produced content. -/
def allExtractFailed : ExtractionResult :=
  { success := false, content := none, confidence := 0, method := "unknown",
    errors := ["All extraction strategies failed"] }

/-- The strategy loop of EnhancedContentExtractor.extract_content: keep
the best successful result by strict confidence, break as soon as any
result reports confidence above 0.8. `none` marks a strategy that raised
(absorbed by the loop). -/
def extractGo (best : Option ExtractionResult) (bestConf : ℚ) :
    List (Option ExtractionResult) → ExtractionResult
  | [] => best.getD allExtractFailed
  | none :: rest => extractGo best bestConf rest
  | some r :: rest =>
    let takeIt := r.success && decide (bestConf < r.confidence)
    let best' := if takeIt then some r else best
    let bestConf' := if takeIt then r.confidence else bestConf
    if decide ((8 : ℚ)/10 < r.confidence) then best'.getD allExtractFailed
    else extractGo best' bestConf' rest

/-- The extraction cascade over the per-strategy outcomes, in the fixed
order structured-data, semantic, generic, fallback. -/
def extractCascade (outcomes : List (Option ExtractionResult)) : ExtractionResult :=
  extractGo none 0 outcomes

/-- EnhancedContentExtractor.extract_content, with the strategy outcomes
supplied by the HTML-parsing environment (the four strategies return
fixed confidences 0.9, 0.8, 0.6, 0.3 on success and leave the default
confidence 0.0 on failure). -/
def extract_content (html : String) (outcomes : List (Option ExtractionResult)) :
    ExtractionResult :=
  if html = "" ∨ html.length < 100 then
    { success := false, content := none, confidence := 0, method := "unknown",
      errors := ["HTML content too short or empty"] }
  else extractCascade outcomes

/-! ## Orchestrator (src/articles/base_scraper.py) -/

/-- articles.base_scraper.ScraperConfig, by the fields scrape_articles
reads. -/
structure ScraperConfig where
  source_name : String
  max_articles_per_run : Nat := 1000
  validation_required : Bool := true
deriving DecidableEq

/-- The value strings of the models.Source enum. -/
def sourceEnumValues : List String :=
  ["billboard", "rolling_stone", "pitchfork", "npr", "spotify", "apple_podcasts",
   "substack"]

/-- The source_mapping dict of scrape_articles with its
Source.PITCHFORK default. -/
def source_mapping (s : String) : String :=
  if s = "pitchfork" then "pitchfork"
  else if s = "npr" then "npr"
  else if s = "rolling stone" then "rolling_stone"
  else if s = "billboard" then "billboard"
  else "pitchfork"

/-- BaseArticleScraper._create_empty_batch: `Source(source_name.lower())`
raises ValueError whenever the lowered name is not a Source enum value;
otherwise an empty batch tagged with that source is returned. -/
def _create_empty_batch (cfg : ScraperConfig) (discovered : Nat) :
    Except String ScrapingBatch :=
  if pyLower cfg.source_name ∈ sourceEnumValues then
    Except.ok (mkScrapingBatch "batch" (some (pyLower cfg.source_name)) [] discovered)
  else Except.error "ValueError: not a valid Source"

/-- The collaborators of one scraping run: the discovery phase (which can
raise), and the per-URL fetch-extract-enhance-filter pipeline, whose
outcome per URL is a record, None (dropped at some stage), or a raised
exception (absorbed by the gather with return_exceptions=True). The S3
upload phase sits inside its own try/except in the source, so its outcome
cannot change the returned batch and is not threaded here. -/
structure ScraperWorld where
  discovery : Except String (List String)
  processUrl : String → Except String (Option ScrapedContent)

/-- BaseArticleScraper.scrape_articles. The body runs inside one
try/except whose handler returns `_create_empty_batch`; an exception
raised by the handler itself (or by `_create_empty_batch` called inside
the try) propagates to the caller. -/
def scrape_articles (cfg : ScraperConfig) (w : ScraperWorld) :
    Except String ScrapingBatch :=
  let body : Except String ScrapingBatch :=
    match w.discovery with
    | Except.error e => Except.error e
    | Except.ok urls =>
      if urls.isEmpty then _create_empty_batch cfg urls.length
      else
        let urls_to_process := urls.take cfg.max_articles_per_run
        let results := urls_to_process.map w.processUrl
        let scraped := results.filterMap fun r =>
          match r with
          | Except.ok (some c) => some c
          | _ => none
        let validated :=
          if cfg.validation_required then
            scraped.filterMap fun item =>
              let v := validate_scraped_content item
              if v.passed then
                some { item with validation_passed := true, confidence_score := v.score }
              else none
          else scraped
        let batch :=
          mkScrapingBatch "batch" (some (source_mapping (pyLower cfg.source_name)))
            validated urls.length
        if (pre_processing_safety_check batch).1 then Except.ok batch
        else _create_empty_batch cfg urls.length
  match body with
  | Except.ok b => Except.ok b
  | Except.error _ => _create_empty_batch cfg 0

/-! ## Concrete instances used by the claim theorems -/

/-- A storage state in which the derived key, all 99 numbered variants,
and the timestamp fallback key for clock value 20250101_000000 already
exist. -/
def c1Storage : List String :=
  "b.j" :: ((List.range 99).map fun i => variantKey "b" "j" (i + 1)) ++
    ["b_20250101_000000.j"]


/-- Digest stand-in for concrete instances: the source uses SHA-256,
which is external cryptography supplied to the model as a function. -/
def sha256Stub : String → String := fun _ => "aaaabbbbccccdddd"

/-- A concrete record constructed the way the pipeline constructs
records; its title and body match none of the artist or thematic
patterns. -/
def quietRecord : ScrapedContent :=
  mkScrapedContent sha256Stub "01HQ" "https://pitchfork.com/x" "Quiet Horses Galloping"
    "The gallery opened early today." "article"
    { source := "Pitchfork", title := "Quiet Horses Galloping",
      url := "https://pitchfork.com/x" }
    ⟨2025, 1, 2, 3, 4, 5⟩ (4/5) "semantic"


/-- A configuration whose source name is not a models.Source value. -/
def badConfig : ScraperConfig := { source_name := "soundcloud" }

/-- A perfectly ordinary world: discovery completes with no URLs. -/
def emptyWorld : ScraperWorld :=
  { discovery := Except.ok [], processUrl := fun _ => Except.ok none }


/-- Two minimal records from distinct publications, used as the witness
batch for the mixed-sources gate. -/
def pitchforkStub : ScrapedContent :=
  { id := "p1", url := "https://pitchfork.com/a", title := "A music note",
    content := "short body", content_type := "article",
    source_attribution :=
      { source := "Pitchfork", title := "A music note", url := "https://pitchfork.com/a" },
    scraped_at := ⟨2025, 1, 2, 3, 4, 5⟩, confidence_score := 9/10, word_count := 2,
    extraction_method := "semantic", validation_passed := false, s3_key := none,
    content_hash := none }

/-- Second stub record, attributed to NPR. -/
def nprStub : ScrapedContent :=
  { pitchforkStub with
    id := "p2",
    source_attribution :=
      { source := "NPR", title := "A music note", url := "https://npr.org/a" } }


/-- A concrete record that passes every validation sub-check with
score 1. -/
def goodRecord : ScrapedContent :=
  { id := "01G", url := "https://pitchfork.com/a", title := "Morning Music Notes",
    content := "The band played music all evening and the song carried through the hall. The album sounded warm on the old record player and the guitar lines moved gently over the drums while the melody stayed soft and clear.",
    content_type := "article",
    source_attribution :=
      { source := "Pitchfork", title := "Morning Music Notes",
        url := "https://pitchfork.com/a" },
    scraped_at := ⟨2025, 1, 2, 3, 4, 5⟩, confidence_score := 9/10, word_count := 38,
    extraction_method := "semantic", validation_passed := false, s3_key := none,
    content_hash := none }



/-- A concrete record that passes single-record validation (no errors,
score 72/125 = 0.576 > 0.5) while triggering the repetitive (0.8),
unknown-source (0.9) and limited-relevance (0.8) warnings — its score
sits strictly between the per-item pass bar 0.5 and the batch-average
bar 0.6. -/
def warnRecord : ScrapedContent :=
  { id := "01W", url := "https://quietzine.example/a", title := "Quiet evening notes",
    content := "the song is here. the song is here. the song is here. the song is here. the song is here. the song is here. the song is here. the song is here. the song is here. the song is here. the song is here. the song is here. ",
    content_type := "article",
    source_attribution :=
      { source := "Quiet Zine", title := "Quiet evening notes",
        url := "https://quietzine.example/a" },
    scraped_at := ⟨2025, 1, 2, 3, 4, 5⟩, confidence_score := 9/10, word_count := 48,
    extraction_method := "semantic", validation_passed := false, s3_key := none,
    content_hash := none }

/-- All-clear flags, and the same flags with the suspicious-pattern
condition triggered. -/
def wFlagsLo : VFlags :=
  ⟨false, false, false, false, false, false, false, false, false, false, false,
   false, false, false⟩

/-- wFlagsLo with one more failing condition. -/
def wFlagsHi : VFlags := { wFlagsLo with suspicious := true }


/-- Recognizes the suspicious-pattern error message. -/
def isSuspMsg (e : String) : Bool :=
  listIsPref ("Suspicious content pattern detected: ".data) e.data

/-- The quality factors other than the suspicious-pattern one. -/
def qFactorSansSusp (f : VFlags) : ℚ :=
  (((((1 * iteF f.contentShort ((3 : ℚ)/10)) * iteF f.contentLong (9/10)) *
    iteF f.titleShort (1/2)) * iteF f.titleLong (9/10)) * iteF f.repetitive (4/5)) *
    iteF f.lowShare (9/10)

/-! ## Shared lemmas -/

/-- The collision loop only ever returns a key it has checked to be
absent from storage — unless its fuel runs out, in which case it returns
the unchecked timestamp key. -/
theorem uniqueLoop_fresh_or_fallback (storage : List String) (bn ext ts : String) :
    ∀ fuel counter, uniqueLoop storage bn ext counter fuel ts ∉ storage ∨
      uniqueLoop storage bn ext counter fuel ts = bn ++ "_" ++ ts ++ "." ++ ext := by
  intro fuel
  induction fuel with
  | zero => intro counter; right; rfl
  | succ f ih =>
    intro counter
    unfold uniqueLoop
    by_cases h : storage.contains (variantKey bn ext counter) = true
    · rw [if_pos h]
      exact ih (counter + 1)
    · rw [if_neg h]
      left
      simpa using h

/-- C1 counterexample: the claim says no existing object is ever
overwritten, but when the derived key and every numbered variant are
taken, `_generate_unique_key` returns the timestamp fallback key without
checking it, and here that key already exists in storage — the upload
writes over an existing object. -/
theorem upload_key_overwrite_cex :
    chooseUploadKey c1Storage "b.j" "20250101_000000" = "b_20250101_000000.j" ∧
    chooseUploadKey c1Storage "b.j" "20250101_000000" ∈ c1Storage := by
  constructor
  · decide
  · decide

/-- C1 (amended): before writing, the uploader checks whether the derived
key exists; when it does, it takes the first free numbered variant _001 to
_099, and only after 99 taken variants falls back to a timestamp key that
is written without an existence check. Consequently every chosen key is
absent from storage at write time unless it is that unchecked timestamp
fallback; and a fresh sequence of three uploads of one base key receives
the base key, then _001, then _002. -/
theorem upload_key_collision_policy :
    (∀ (storage : List String) (base_key ts : String),
      chooseUploadKey storage base_key ts ∉ storage ∨
        chooseUploadKey storage base_key ts = timestampFallbackKey base_key ts) ∧
    uploadKeySeq "scraped-content/a/r/f.json" ["t1", "t2", "t3"] [] =
      (["scraped-content/a/r/f.json", "scraped-content/a/r/f_001.json",
        "scraped-content/a/r/f_002.json"],
       ["scraped-content/a/r/f_002.json", "scraped-content/a/r/f_001.json",
        "scraped-content/a/r/f.json"]) := by
  constructor
  · intro storage base_key ts
    unfold chooseUploadKey
    by_cases h : storage.contains base_key = true
    · rw [if_pos h]
      unfold _generate_unique_key timestampFallbackKey
      exact uniqueLoop_fresh_or_fallback storage _ _ ts 99 1
    · rw [if_neg h]
      left
      simpa using h
  · decide

/-- C7 counterexample: the storage key is computed at construction from
source, date and hash, but a successful upload with no collision at all
still replaces it with the artist/thematic placer key — the record does
not keep the key it was constructed with. -/
theorem upload_rewrites_key_cex :
    quietRecord.s3_key =
      some "scraped-content/pitchfork/2025/01/02/content-aaaabbbbccccdddd.json" ∧
    (_upload_content_item quietRecord [] true ⟨2025, 1, 2, 3, 5, 0⟩).2.1.s3_key =
      some ("scraped-content/variouspitchfork/article/" ++
        "pitchfork_20250102_0304_aaaabbbb_Quiet_Horses_Galloping.json") ∧
    (_upload_content_item quietRecord [] true ⟨2025, 1, 2, 3, 5, 0⟩).2.1.s3_key ≠
      quietRecord.s3_key := by
  refine ⟨by decide, by decide, by decide⟩

/-- C7 (amended): the storage key is computed once at construction from
the attribution source and content hash, but every successful upload
rewrites it to the Artifact Placer key derived from artist, thematic
category and filename; when the derived key does not collide, the record
ends up holding exactly that placer key (not its construction-time key),
and collision avoidance only changes which placer variant is stored. -/
theorem upload_sets_placer_key (c : ScrapedContent) (storage : List String)
    (now : PyDateTime) (h : storage.contains (placerBaseKey c) = false) :
    (_upload_content_item c storage true now).1 = some (placerBaseKey c) ∧
    (_upload_content_item c storage true now).2.1.s3_key = some (placerBaseKey c) := by
  have h' : placerBaseKey c ∉ storage := by simpa using h
  simp [_upload_content_item, chooseUploadKey, h']

/-- Witness for C7: a concrete no-collision upload where the theorem
applies and fixes the stored key. -/
theorem upload_sets_placer_key_witness :
    ([] : List String).contains (placerBaseKey quietRecord) = false ∧
    (_upload_content_item quietRecord [] true ⟨2025, 1, 2, 3, 5, 0⟩).2.1.s3_key =
      some (placerBaseKey quietRecord) :=
  ⟨by decide, (upload_sets_placer_key quietRecord [] ⟨2025, 1, 2, 3, 5, 0⟩ (by decide)).2⟩

/-- The fetch cascade returns the first acceptable strategy outcome and
otherwise the aggregate failure result. -/
theorem fetchCascade_eq_firstGood (url : String) (outcomes : List (Option FetchResult)) :
    fetchCascade url outcomes =
      match firstGoodFetch outcomes with
      | some r => r
      | none => allFetchFailed url := by
  induction outcomes with
  | nil => rfl
  | cons o rest ih =>
    cases o with
    | none => simpa [fetchCascade, firstGoodFetch] using ih
    | some r =>
      by_cases h : goodFetch r = true
      · simp [fetchCascade, firstGoodFetch, h]
      · simp only [Bool.not_eq_true] at h
        simpa [fetchCascade, firstGoodFetch, h] using ih

/-- C3: fetch-with-fallbacks returns the result of the first strategy in
the fixed order (direct, archive-ph, archive-org, google-cache) whose
result is successful with text longer than 500 characters; when no
strategy qualifies it returns the failure result carrying the aggregate
error, with success set to false. Per-strategy exceptions are the `none`
outcomes, absorbed by the cascade, which is a total function — nothing
propagates to the caller. -/
theorem fetch_with_fallbacks_first_good :
    (∀ (url : String) (d a b g : Option FetchResult),
      fetch_with_fallbacks url d a b g =
        match firstGoodFetch [d, a, b, g] with
        | some r => r
        | none => allFetchFailed url) ∧
    (∀ url : String, (allFetchFailed url).success = false ∧
      (allFetchFailed url).error_message = some "All fetch strategies failed") :=
  ⟨fun url d a b g => fetchCascade_eq_firstGood url [d, a, b, g],
   fun _ => ⟨rfl, rfl⟩⟩

/-- Short-circuit step of the extraction loop: after a prefix of outcomes
none of which reports confidence above 0.8, a successful outcome above
0.8 is taken as best and the loop breaks on it, whatever follows. -/
theorem extractGo_break (post : List (Option ExtractionResult)) (r : ExtractionResult)
    (hr : r.success = true) (hc : (8 : ℚ)/10 < r.confidence) :
    ∀ (pre : List (Option ExtractionResult)) (best : Option ExtractionResult) (bestConf : ℚ),
      (∀ o ∈ pre, ∀ s, o = some s → s.confidence ≤ (8 : ℚ)/10) →
      bestConf ≤ (8 : ℚ)/10 →
      extractGo best bestConf (pre ++ some r :: post) = r := by
  intro pre
  induction pre with
  | nil =>
    intro best bestConf _ hbc
    have h1 : bestConf < r.confidence := lt_of_le_of_lt hbc hc
    simp [extractGo, hr, h1, hc]
  | cons o rest ih =>
    intro best bestConf hpre hbc
    cases o with
    | none =>
      simp only [List.cons_append, extractGo]
      exact ih best bestConf (fun o ho s hs => hpre o (List.mem_cons_of_mem _ ho) s hs) hbc
    | some u =>
      have hu8 : u.confidence ≤ (8 : ℚ)/10 := hpre (some u) (List.mem_cons_self _ _) u rfl
      have hnb : ¬((8 : ℚ)/10 < u.confidence) := not_lt.mpr hu8
      have hrest : ∀ o ∈ rest, ∀ s, o = some s → s.confidence ≤ (8 : ℚ)/10 :=
        fun o ho s hs => hpre o (List.mem_cons_of_mem _ ho) s hs
      simp only [List.cons_append, extractGo]
      rw [if_neg (by simpa using hnb)]
      by_cases ht : (u.success && decide (bestConf < u.confidence)) = true
      · rw [if_pos ht, if_pos ht]
        exact ih (some u) u.confidence hrest hu8
      · rw [if_neg ht, if_neg ht]
        exact ih best bestConf hrest hbc

/-- Full-run behaviour of the extraction loop when no outcome exceeds
confidence 0.8: the loop consumes every outcome and returns the best
successful one by strict confidence comparison. -/
theorem extractGo_no_break :
    ∀ (outcomes : List (Option ExtractionResult)) (best : Option ExtractionResult)
      (bestConf : ℚ),
      (∀ o ∈ outcomes, ∀ s, o = some s → s.confidence ≤ (8 : ℚ)/10) →
      (∀ b, best = some b → b.success = true ∧ b.confidence = bestConf) →
      0 ≤ bestConf → bestConf ≤ (8 : ℚ)/10 →
      ((∃ s, some s ∈ outcomes ∧ s.success = true ∧ bestConf < s.confidence) ∨
        (∃ b, best = some b)) →
      (extractGo best bestConf outcomes).success = true ∧
      (some (extractGo best bestConf outcomes) ∈ outcomes ∨
        best = some (extractGo best bestConf outcomes)) ∧
      bestConf ≤ (extractGo best bestConf outcomes).confidence ∧
      (∀ s, some s ∈ outcomes → s.success = true →
        s.confidence ≤ (extractGo best bestConf outcomes).confidence) := by
  intro outcomes
  induction outcomes with
  | nil =>
    intro best bestConf _ hbest _ _ hsome
    rcases hsome with ⟨s, hmem, _⟩ | ⟨b, hb⟩
    · exact absurd hmem (List.not_mem_nil _)
    · subst hb
      refine ⟨(hbest b rfl).1, Or.inr rfl, le_of_eq (hbest b rfl).2.symm, ?_⟩
      intro s hmem
      exact absurd hmem (List.not_mem_nil _)
  | cons o rest ih =>
    intro best bestConf hconf hbest hbc0 hbc8 hsome
    cases o with
    | none =>
      have hconf' : ∀ o ∈ rest, ∀ s, o = some s → s.confidence ≤ (8 : ℚ)/10 :=
        fun o ho s hs => hconf o (List.mem_cons_of_mem _ ho) s hs
      have hsome' :
          (∃ s, some s ∈ rest ∧ s.success = true ∧ bestConf < s.confidence) ∨
            (∃ b, best = some b) := by
        rcases hsome with ⟨s, hmem, hs⟩ | hb
        · rcases List.mem_cons.mp hmem with h | h
          · exact absurd h.symm (by simp)
          · exact Or.inl ⟨s, h, hs⟩
        · exact Or.inr hb
      have := ih best bestConf hconf' hbest hbc0 hbc8 hsome'
      refine ⟨this.1, ?_, this.2.2.1, ?_⟩
      · rcases this.2.1 with h | h
        · exact Or.inl (List.mem_cons_of_mem _ h)
        · exact Or.inr h
      · intro s hmem hs
        rcases List.mem_cons.mp hmem with h | h
        · exact absurd h.symm (by simp)
        · exact this.2.2.2 s h hs
    | some u =>
      have hu8 : u.confidence ≤ (8 : ℚ)/10 := hconf (some u) (List.mem_cons_self _ _) u rfl
      have hnb : ¬((8 : ℚ)/10 < u.confidence) := not_lt.mpr hu8
      have hconf' : ∀ o ∈ rest, ∀ s, o = some s → s.confidence ≤ (8 : ℚ)/10 :=
        fun o ho s hs => hconf o (List.mem_cons_of_mem _ ho) s hs
      simp only [extractGo]
      rw [if_neg (by simpa using hnb)]
      by_cases ht : (u.success && decide (bestConf < u.confidence)) = true
      · rw [if_pos ht, if_pos ht]
        have htks := Bool.and_eq_true_iff.mp ht
        have husucc : u.success = true := htks.1
        have hulti : bestConf < u.confidence := of_decide_eq_true htks.2
        have hbest' : ∀ b, some u = some b → b.success = true ∧ b.confidence = u.confidence :=
          fun b hb => by cases hb; exact ⟨husucc, rfl⟩
        have := ih (some u) u.confidence hconf' hbest'
          (le_trans hbc0 (le_of_lt hulti)) hu8 (Or.inr ⟨u, rfl⟩)
        refine ⟨this.1, ?_, le_trans (le_of_lt hulti) this.2.2.1, ?_⟩
        · rcases this.2.1 with h | h
          · exact Or.inl (List.mem_cons_of_mem _ h)
          · exact Or.inl (by rw [← Option.some.injEq _ _ |>.mpr rfl]; exact h ▸ List.mem_cons_self _ _)
        · intro s hmem hs
          rcases List.mem_cons.mp hmem with h | h
          · have : s = u := by simpa using h
            subst this
            exact le_trans (le_of_eq rfl) this.2.2.1
          · exact this.2.2.2 s h hs
      · rw [if_neg ht, if_neg ht]
        have hsome' :
            (∃ s, some s ∈ rest ∧ s.success = true ∧ bestConf < s.confidence) ∨
              (∃ b, best = some b) := by
          rcases hsome with ⟨s, hmem, hsuc, hlt⟩ | hb
          · rcases List.mem_cons.mp hmem with h | h
            · have hsu : s = u := by simpa using h
              subst hsu
              exact absurd (by simp [hsuc, decide_eq_true hlt]) ht
            · exact Or.inl ⟨s, h, hsuc, hlt⟩
          · exact Or.inr hb
        have := ih best bestConf hconf' hbest hbc0 hbc8 hsome'
        refine ⟨this.1, ?_, this.2.2.1, ?_⟩
        · rcases this.2.1 with h | h
          · exact Or.inl (List.mem_cons_of_mem _ h)
          · exact Or.inr h
        · intro s hmem hs
          rcases List.mem_cons.mp hmem with h | h
          · have hsu : s = u := by simpa using h
            subst hsu
            have hnlt : ¬(bestConf < s.confidence) := by
              intro hlt
              exact ht (by simp [hs, decide_eq_true hlt])
            exact le_trans (not_lt.mp hnlt) this.2.2.1
          · exact this.2.2.2 s h hs

/-- C4: if extraction strategy k (in the fixed order structured-data,
semantic, generic, fallback) returns a successful result with confidence
strictly above 0.8 while the earlier strategies all reported at most 0.8,
the cascade stops at k with that result — the later outcomes never
influence the run, i.e. strategies k+1..n are never invoked. If no
strategy exceeds 0.8, the whole list is consumed and a
highest-confidence successful result is returned (failures carry the
default confidence 0, and the four source strategies report fixed
positive confidences 0.9, 0.8, 0.6, 0.3 on success, which the positivity
hypothesis records). -/
theorem extract_cascade_short_circuit :
    (∀ (pre post : List (Option ExtractionResult)) (r : ExtractionResult),
      (∀ o ∈ pre, ∀ s, o = some s → s.confidence ≤ (8 : ℚ)/10) →
      r.success = true → (8 : ℚ)/10 < r.confidence →
      extractCascade (pre ++ some r :: post) = r) ∧
    (∀ outcomes : List (Option ExtractionResult),
      (∀ o ∈ outcomes, ∀ s, o = some s →
        s.confidence ≤ (8 : ℚ)/10 ∧ (s.success = true → 0 < s.confidence)) →
      (∃ s, some s ∈ outcomes ∧ s.success = true) →
      (extractCascade outcomes).success = true ∧
      some (extractCascade outcomes) ∈ outcomes ∧
      (∀ s, some s ∈ outcomes → s.success = true →
        s.confidence ≤ (extractCascade outcomes).confidence)) := by
  constructor
  · intro pre post r hpre hr hc
    exact extractGo_break post r hr hc pre none 0 hpre (by norm_num)
  · intro outcomes hinv hex
    have hconf : ∀ o ∈ outcomes, ∀ s, o = some s → s.confidence ≤ (8 : ℚ)/10 :=
      fun o ho s hs => (hinv o ho s hs).1
    rcases hex with ⟨s, hmem, hsuc⟩
    have hpos : (0 : ℚ) < s.confidence := (hinv (some s) hmem s rfl).2 hsuc
    have h := extractGo_no_break outcomes none 0 hconf (by intro b hb; cases hb)
      le_rfl (by norm_num) (Or.inl ⟨s, hmem, hsuc, hpos⟩)
    refine ⟨h.1, ?_, h.2.2.2⟩
    rcases h.2.1 with hm | hm
    · exact hm
    · cases hm

/-- Witness for C4: a cascade where the second strategy succeeds at 0.9
after a 0-confidence failure short-circuits there, and a cascade of a
failure followed by a 0.6 success returns that success as best. -/
theorem extract_cascade_short_circuit_witness :
    extractCascade [some ⟨false, none, 0, "structured_data", []⟩,
        some ⟨true, none, (9 : ℚ)/10, "semantic", []⟩,
        some ⟨true, none, (3 : ℚ)/5, "generic", []⟩] =
      ⟨true, none, (9 : ℚ)/10, "semantic", []⟩ ∧
    (extractCascade [some ⟨false, none, 0, "structured_data", []⟩,
        some ⟨true, none, (3 : ℚ)/5, "generic", []⟩]).success = true := by
  constructor
  · exact extract_cascade_short_circuit.1 [some ⟨false, none, 0, "structured_data", []⟩]
      [some ⟨true, none, (3 : ℚ)/5, "generic", []⟩]
      ⟨true, none, (9 : ℚ)/10, "semantic", []⟩
      (by intro o ho s hs; simp at ho; rw [ho] at hs; cases hs; norm_num)
      rfl (by norm_num)
  · exact (extract_cascade_short_circuit.2
      [some ⟨false, none, 0, "structured_data", []⟩,
        some ⟨true, none, (3 : ℚ)/5, "generic", []⟩]
      (by
        intro o ho s hs
        rcases List.mem_cons.mp ho with h | h
        · rw [h] at hs; cases hs; exact ⟨by norm_num, by intro hfalse; cases hfalse⟩
        · simp at h; rw [h] at hs; cases hs; exact ⟨by norm_num, fun _ => by norm_num⟩)
      ⟨⟨true, none, (3 : ℚ)/5, "generic", []⟩, by simp, rfl⟩).1

/-- C8 counterexample: with a configured source name outside the Source
enum, a run that discovers zero URLs makes `_create_empty_batch` call
`Source(source_name.lower())`, which raises ValueError; the except
handler calls `_create_empty_batch` again and the same ValueError
propagates to the caller — the orchestrator does raise. -/
theorem scrape_articles_raises_cex :
    scrape_articles badConfig emptyWorld = Except.error "ValueError: not a valid Source" := by
  rfl

/-- C8 (amended): whenever the configured source name lowercases to a
models.Source value — true of every scraper configuration in the
repository — a scraping run returns a batch for every behaviour of the
collaborators, exceptions included; the orchestrator never raises. For
other source names the empty-batch fallback itself raises ValueError. -/
theorem scrape_articles_total_for_known_sources (cfg : ScraperConfig) (w : ScraperWorld)
    (h : pyLower cfg.source_name ∈ sourceEnumValues) :
    ∃ b, scrape_articles cfg w = Except.ok b := by
  have hce : ∀ d, _create_empty_batch cfg d =
      Except.ok (mkScrapingBatch "batch" (some (pyLower cfg.source_name)) [] d) := by
    intro d
    simp [_create_empty_batch, h]
  unfold scrape_articles
  cases hd : w.discovery with
  | error e => simp [hce]
  | ok urls =>
    by_cases hu : urls.isEmpty = true
    · simp [hu, hce]
    · simp only [hu, if_false, hce]
      split
      · next b hb => exact ⟨b, rfl⟩
      · next e he => exact ⟨_, rfl⟩

/-- Witness for C8: the theorem applied to the Pitchfork configuration
and the zero-URL world returns a batch. -/
theorem scrape_articles_total_witness :
    pyLower "pitchfork" ∈ sourceEnumValues ∧
    (∃ b, scrape_articles { source_name := "pitchfork" } emptyWorld = Except.ok b) :=
  ⟨by decide,
   scrape_articles_total_for_known_sources { source_name := "pitchfork" } emptyWorld
     (by decide)⟩

/-- C9: a batch with no content items fails batch validation with score
0.0 and the no-items error, and the safety gate on it is never safe — an
empty batch cannot be admitted to persistence. -/
theorem empty_batch_never_safe (b : ScrapingBatch) (h : b.content_items = []) :
    validate_batch b =
      { passed := false, score := 0, errors := ["Batch contains no content items"],
        warnings := [] } ∧
    pre_processing_safety_check b = (false, ["Batch contains no content items"]) := by
  have h1 : validate_batch b =
      { passed := false, score := 0, errors := ["Batch contains no content items"],
        warnings := [] } := by
    simp [validate_batch, h]
  refine ⟨h1, ?_⟩
  simp [pre_processing_safety_check, h, h1]

/-- Witness for C9: the gate on a concrete empty batch. -/
theorem empty_batch_never_safe_witness :
    pre_processing_safety_check (mkScrapingBatch "b0" none [] 0) =
      (false, ["Batch contains no content items"]) :=
  (empty_batch_never_safe (mkScrapingBatch "b0" none [] 0) rfl).2

/-- A list without duplicates whose members are all one value has at most
one element. -/
theorem nodup_len_le_one {α : Type} {l : List α} {a : α} (hn : l.Nodup)
    (ha : ∀ x ∈ l, x = a) : l.length ≤ 1 := by
  match l with
  | [] => simp
  | [_] => simp
  | x :: y :: t =>
    have hx : x = a := ha x (List.mem_cons_self _ _)
    have hy : y = a := ha y (List.mem_cons_of_mem _ (List.mem_cons_self _ _))
    have : x ≠ y := by
      have := List.nodup_cons.mp hn
      intro he
      exact this.1 (he ▸ List.mem_cons_self _ _)
    exact absurd (hx.trans hy.symm) this

/-- Two distinct members force more than one element after dedup. -/
theorem one_lt_dedup_length {α : Type} [DecidableEq α] {l : List α} {a b : α}
    (ha : a ∈ l) (hb : b ∈ l) (hne : a ≠ b) : 1 < l.dedup.length := by
  have ha' : a ∈ l.dedup := List.mem_dedup.mpr ha
  have hb' : b ∈ l.dedup := List.mem_dedup.mpr hb
  match hd : l.dedup with
  | [] => rw [hd] at ha'; cases ha'
  | [x] =>
    rw [hd] at ha' hb'
    simp only [List.mem_singleton] at ha' hb'
    exact absurd (ha'.trans hb'.symm) hne
  | x :: y :: t => simp

/-- The `passed` field of a single-record validation, in terms of its
errors and score (holds by unfolding the definition). -/
theorem validate_passed_eq (c : ScrapedContent) :
    (validate_scraped_content c).passed =
      ((validate_scraped_content c).errors.isEmpty &&
        decide ((1 : ℚ)/2 < (validate_scraped_content c).score)) := by
  unfold validate_scraped_content
  rfl

/-- Every enumerated element of a replicated list carries the replicated
value. -/
theorem enum_replicate_snd {α : Type} {x : ℕ × α} {n : Nat} {a : α}
    (h : x ∈ (List.replicate n a).enum) : x.2 = a := by
  have h1 := List.mem_enum_iff_getElem?.mp h
  have h2 : x.2 ∈ List.replicate n a := by
    obtain ⟨_, he⟩ := List.getElem?_eq_some.mp h1
    rw [← he]
    exact List.getElem_mem _
  exact List.eq_of_mem_replicate h2

/-- Batch validation of n identical items that each validate cleanly with
score at least 0.6: the batch passes with no errors. -/
theorem validate_batch_replicate (r : ScrapedContent) (n : Nat) (b : ScrapingBatch)
    (hb : b.content_items = List.replicate n r)
    (herr : (validate_scraped_content r).errors = [])
    (hscore : (3 : ℚ)/5 ≤ (validate_scraped_content r).score)
    (hn : 1 ≤ n) :
    (validate_batch b).passed = true ∧ (validate_batch b).errors = [] := by
  have hn0 : n ≠ 0 := Nat.one_le_iff_ne_zero.mp hn
  have hpassed : (validate_scraped_content r).passed = true := by
    rw [validate_passed_eq, herr]
    simp only [List.isEmpty_nil, Bool.true_and, decide_eq_true_eq]
    linarith
  have hnonempty : (List.replicate n r).isEmpty = false := by
    simp [List.isEmpty_iff, hn0]
  unfold validate_batch
  rw [hb, hnonempty]
  simp only [Bool.false_eq_true, if_false, List.map_replicate]
  have hcount : (List.replicate n (validate_scraped_content r)).countP
      (fun v => !v.passed) = 0 := by
    rw [List.countP_eq_zero]
    intro x hx
    rw [List.eq_of_mem_replicate hx]
    simp [hpassed]
  have hflat : ((List.replicate n (validate_scraped_content r)).enum.map fun p =>
      if p.2.passed = true then []
      else p.2.errors.map fun e => "Item " ++ toString p.1 ++ ": " ++ e).flatten =
      ([] : List String) := by
    rw [List.flatten_eq_nil_iff]
    intro x hx
    rcases List.mem_map.mp hx with ⟨p, hp, hpe⟩
    rw [← hpe, enum_replicate_snd hp, hpassed]
    simp
  have hsum : (List.replicate n (validate_scraped_content r).score).sum =
      (n : ℚ) * (validate_scraped_content r).score := by
    simp [List.sum_replicate, nsmul_eq_mul]
  have hlen : (List.replicate n r).length = n := List.length_replicate n r
  have hcast : ((n : ℚ)) ≠ 0 := Nat.cast_ne_zero.mpr hn0
  have havg : (n : ℚ) * (validate_scraped_content r).score / (n : ℚ) =
      (validate_scraped_content r).score := by
    field_simp
  simp only [hcount, hflat, hsum, hlen, havg, Nat.sub_zero]
  have hrate : ((n : ℚ) / (n : ℚ)) = 1 := by field_simp
  rw [hrate]
  have hc1 : ¬((1 : ℚ) < 7/10) := by norm_num
  have hc2 : ¬((validate_scraped_content r).score < 3/5) := not_lt.mpr hscore
  simp [hc1, hc2]

/-- C5: a batch holding records with two distinct attribution source
names always fails the safety gate with the mixed-sources error,
regardless of whether each item passes single-record validation. (The
nonempty-content hypothesis keeps the model on the domain where the
source validator returns at all: an empty body raises ZeroDivisionError
in the source before any verdict.) -/
theorem safety_gate_rejects_mixed_sources (b : ScrapingBatch) (x y : ScrapedContent)
    (hx : x ∈ b.content_items) (hy : y ∈ b.content_items)
    (hne : x.source_attribution.source ≠ y.source_attribution.source)
    (_hbody : ∀ i ∈ b.content_items, i.content ≠ "") :
    (pre_processing_safety_check b).1 = false ∧
    mixedSourcesMsg ∈ (pre_processing_safety_check b).2 := by
  have hxm : x.source_attribution.source ∈
      b.content_items.map fun i => i.source_attribution.source :=
    List.mem_map_of_mem _ hx
  have hym : y.source_attribution.source ∈
      b.content_items.map fun i => i.source_attribution.source :=
    List.mem_map_of_mem _ hy
  have hlt : 1 < ((b.content_items.map fun i => i.source_attribution.source).dedup).length :=
    one_lt_dedup_length hxm hym hne
  unfold pre_processing_safety_check
  simp only [hlt, if_true, if_pos hlt]
  constructor
  · simp [List.isEmpty_eq_false_iff_exists_mem]
  · simp [mixedSourcesMsg]

/-- Witness for C5: a two-item mixed-source batch fails the gate with the
mixed-sources error. -/
theorem safety_gate_rejects_mixed_sources_witness :
    (pre_processing_safety_check
      (mkScrapingBatch "w5" none [pitchforkStub, nprStub] 2)).1 = false ∧
    mixedSourcesMsg ∈
      (pre_processing_safety_check
        (mkScrapingBatch "w5" none [pitchforkStub, nprStub] 2)).2 :=
  safety_gate_rejects_mixed_sources (mkScrapingBatch "w5" none [pitchforkStub, nprStub] 2)
    pitchforkStub nprStub (by simp [mkScrapingBatch])
    (by simp [mkScrapingBatch]) (by decide) (by decide)

/-- Batch validation and the gate on n replicated items that each pass
single-record validation but score below 0.6: for 1 <= n <= 100 the gate
fails on the batch-average check alone. -/
theorem gate_low_average (n : Nat) (r : ScrapedContent) (b : ScrapingBatch)
    (hb : b.content_items = List.replicate n r)
    (hpassed : (validate_scraped_content r).passed = true)
    (hscore : (validate_scraped_content r).score < (3 : ℚ)/5)
    (hn : 1 ≤ n) (hn100 : n ≤ 100) :
    (pre_processing_safety_check b).1 = false ∧
    (pre_processing_safety_check b).2 = ["Batch average quality too low"] := by
  have hn0 : n ≠ 0 := Nat.one_le_iff_ne_zero.mp hn
  have hnonempty : (List.replicate n r).isEmpty = false := by
    simp [List.isEmpty_iff, hn0]
  have hvb : (validate_batch b).passed = false ∧
      (validate_batch b).errors = ["Batch average quality too low"] := by
    unfold validate_batch
    rw [hb, hnonempty]
    simp only [Bool.false_eq_true, if_false, List.map_replicate]
    have hcount : (List.replicate n (validate_scraped_content r)).countP
        (fun v => !v.passed) = 0 := by
      rw [List.countP_eq_zero]
      intro x hx
      rw [List.eq_of_mem_replicate hx]
      simp [hpassed]
    have hflat : ((List.replicate n (validate_scraped_content r)).enum.map fun p =>
        if p.2.passed = true then []
        else p.2.errors.map fun e => "Item " ++ toString p.1 ++ ": " ++ e).flatten =
        ([] : List String) := by
      rw [List.flatten_eq_nil_iff]
      intro x hx
      rcases List.mem_map.mp hx with ⟨p, hp, hpe⟩
      rw [← hpe, enum_replicate_snd hp, hpassed]
      simp
    have hsum : (List.replicate n (validate_scraped_content r).score).sum =
        (n : ℚ) * (validate_scraped_content r).score := by
      simp [List.sum_replicate, nsmul_eq_mul]
    have hlen : (List.replicate n r).length = n := List.length_replicate n r
    have hcast : ((n : ℚ)) ≠ 0 := Nat.cast_ne_zero.mpr hn0
    have havg : (n : ℚ) * (validate_scraped_content r).score / (n : ℚ) =
        (validate_scraped_content r).score := by
      field_simp
    simp only [hcount, hflat, hsum, hlen, havg, Nat.sub_zero]
    have hrate : ((n : ℚ) / (n : ℚ)) = 1 := by field_simp
    rw [hrate]
    have hc1 : ¬((1 : ℚ) < 7/10) := by norm_num
    simp [hc1, hscore]
  have hsrcs :
      ((b.content_items.map fun i => i.source_attribution.source).dedup).length ≤ 1 := by
    rw [hb, List.map_replicate]
    exact nodup_len_le_one (List.nodup_dedup _)
      (fun x hx => List.eq_of_mem_replicate (List.mem_dedup.mp hx))
  have hns : ¬(1 <
      ((b.content_items.map fun i => i.source_attribution.source).dedup).length) :=
    not_lt.mpr hsrcs
  have hlen2 : b.content_items.length = n := by
    rw [hb]
    exact List.length_replicate n r
  simp only [pre_processing_safety_check]
  rw [hvb.1, hvb.2, hlen2, if_neg (by simp), if_neg (Nat.not_lt.mpr hn100), if_neg hns]
  simp

/-- C6 counterexample: the claim admits every 99-item batch of identical
items that pass per-item quality, but passing only means no errors and
score above 0.5, while batch validation additionally demands an average
score of at least 0.6. warnRecord passes with score 0.576, yet the gate
on 99 copies of it returns safe = false with the batch-average error —
so 99 passing items are not always admitted. -/
theorem gate_rejects_passing_low_average_cex :
    (validate_scraped_content warnRecord).passed = true ∧
    (validate_scraped_content warnRecord).errors = [] ∧
    (pre_processing_safety_check
      (mkScrapingBatch "c6" (some "pitchfork") (List.replicate 99 warnRecord) 99)).1
      = false ∧
    (pre_processing_safety_check
      (mkScrapingBatch "c6" (some "pitchfork") (List.replicate 99 warnRecord) 99)).2
      = ["Batch average quality too low"] := by
  have hpassed : (validate_scraped_content warnRecord).passed = true := by decide
  have herr : (validate_scraped_content warnRecord).errors = [] := by decide
  have hscore : (validate_scraped_content warnRecord).score < (3 : ℚ)/5 := by decide
  have h := gate_low_average 99 warnRecord
    (mkScrapingBatch "c6" (some "pitchfork") (List.replicate 99 warnRecord) 99)
    rfl hpassed hscore (by norm_num) (by norm_num)
  exact ⟨hpassed, herr, h.1, h.2⟩

/-- C6 (amended): for a batch of n identical same-source items each of
which validates cleanly with score at least 0.6 — the batch-average bar,
strictly stronger than merely passing per-item validation — the safety
gate raises the batch-too-large error exactly when n exceeds 100 and is
safe exactly when n is at most 100: 101 items are rejected on size
grounds and 99 are admitted. Per-item passing alone does not suffice for
the 99-item half: see the counterexample, where 99 passing items with
score below 0.6 fail the gate on the batch-average check instead. -/
theorem safety_gate_size_cap (n : Nat) (r : ScrapedContent) (b : ScrapingBatch)
    (hb : b.content_items = List.replicate n r)
    (herr : (validate_scraped_content r).errors = [])
    (hscore : (3 : ℚ)/5 ≤ (validate_scraped_content r).score)
    (hn : 1 ≤ n) :
    ((pre_processing_safety_check b).1 = true ↔ n ≤ 100) ∧
    (batchTooLargeMsg n ∈ (pre_processing_safety_check b).2 ↔ 100 < n) := by
  obtain ⟨hp, -⟩ := validate_batch_replicate r n b hb herr hscore hn
  have hsrcs :
      ((b.content_items.map fun i => i.source_attribution.source).dedup).length ≤ 1 := by
    rw [hb, List.map_replicate]
    exact nodup_len_le_one (List.nodup_dedup _)
      (fun x hx => List.eq_of_mem_replicate (List.mem_dedup.mp hx))
  have hns : ¬(1 <
      ((b.content_items.map fun i => i.source_attribution.source).dedup).length) :=
    not_lt.mpr hsrcs
  have hlen : b.content_items.length = n := by
    rw [hb]
    exact List.length_replicate n r
  simp only [pre_processing_safety_check]
  rw [hp, hlen, if_pos rfl, if_neg hns]
  by_cases h100 : 100 < n
  · have h100' : n > 100 := h100
    rw [if_pos h100']
    simp [h100, Nat.not_le.mpr h100]
  · have h100' : ¬(n > 100) := h100
    rw [if_neg h100']
    simp [h100, Nat.le_of_not_lt h100]

/-- Witness for C6: 101 copies of the clean record overflow the gate with
the batch-too-large error, 99 copies pass it. -/
theorem safety_gate_size_cap_witness :
    ((pre_processing_safety_check
      (mkScrapingBatch "w101" (some "pitchfork") (List.replicate 101 goodRecord) 101)).1
        = false) ∧
    batchTooLargeMsg 101 ∈
      (pre_processing_safety_check
        (mkScrapingBatch "w101" (some "pitchfork") (List.replicate 101 goodRecord) 101)).2 ∧
    ((pre_processing_safety_check
      (mkScrapingBatch "w99" (some "pitchfork") (List.replicate 99 goodRecord) 99)).1
        = true) := by
  have herr : (validate_scraped_content goodRecord).errors = [] := by decide
  have hscore : (3 : ℚ)/5 ≤ (validate_scraped_content goodRecord).score := by decide
  have h101 := safety_gate_size_cap 101 goodRecord
    (mkScrapingBatch "w101" (some "pitchfork") (List.replicate 101 goodRecord) 101)
    rfl herr hscore (by norm_num)
  have h99 := safety_gate_size_cap 99 goodRecord
    (mkScrapingBatch "w99" (some "pitchfork") (List.replicate 99 goodRecord) 99)
    rfl herr hscore (by norm_num)
  refine ⟨?_, h101.2.mpr (by norm_num), h99.1.mpr (by norm_num)⟩
  cases hv : (pre_processing_safety_check
      (mkScrapingBatch "w101" (some "pitchfork") (List.replicate 101 goodRecord) 101)).1
  · rfl
  · exact absurd (h101.1.mp hv) (by norm_num)

/-- Monotonicity-with-bounds triple for one conditional factor. -/
theorem iteF_triple (a b : Bool) (c : ℚ) (h0 : 0 ≤ c) (h1 : c ≤ 1)
    (hab : a = true → b = true) :
    iteF b c ≤ iteF a c ∧ 0 ≤ iteF b c ∧ iteF a c ≤ 1 := by
  by_cases ha : a = true
  · rw [ha, hab ha]
    exact ⟨le_refl _, by simpa [iteF] using h0, by simpa [iteF] using h1⟩
  · rw [Bool.not_eq_true] at ha
    rw [ha]
    cases hb : b
    · exact ⟨le_refl _, by norm_num [iteF], by norm_num [iteF]⟩
    · exact ⟨by simpa [iteF] using h1, by simpa [iteF] using h0, by norm_num [iteF]⟩

/-- Multiplying two monotonicity-with-bounds triples on [0, 1]. -/
theorem unitMul {a b x y : ℚ} (ha : a ≤ b ∧ 0 ≤ a ∧ b ≤ 1)
    (hx : x ≤ y ∧ 0 ≤ x ∧ y ≤ 1) :
    a * x ≤ b * y ∧ 0 ≤ a * x ∧ b * y ≤ 1 :=
  ⟨mul_le_mul ha.1 hx.1 hx.2.1 (le_trans ha.2.1 ha.1),
   mul_nonneg ha.2.1 hx.2.1,
   mul_le_one₀ ha.2.2 (le_trans hx.2.1 hx.1) hx.2.2⟩

/-- The quality sub-score shrinks pointwise with the flags and stays in
[0, 1]. -/
theorem qFactor_triple (f g : VFlags) (h : flagsLe f g) :
    qFactor g ≤ qFactor f ∧ 0 ≤ qFactor g ∧ qFactor f ≤ 1 := by
  obtain ⟨-, h2, h3, h4, h5, h6, h7, h8, -, -, -, -, -, -⟩ := h
  unfold qFactor
  exact unitMul (unitMul (unitMul (unitMul (unitMul (unitMul
    (unitMul ⟨le_refl 1, by norm_num, by norm_num⟩
      (iteF_triple _ _ _ (by norm_num) (by norm_num) h2))
      (iteF_triple _ _ _ (by norm_num) (by norm_num) h3))
      (iteF_triple _ _ _ (by norm_num) (by norm_num) h4))
      (iteF_triple _ _ _ (by norm_num) (by norm_num) h5))
      (iteF_triple _ _ _ (by norm_num) (by norm_num) h6))
      (iteF_triple _ _ _ (by norm_num) (by norm_num) h7))
      (iteF_triple _ _ _ (by norm_num) (by norm_num) h8)

/-- The attribution sub-score shrinks pointwise with the flags and stays
in [0, 1]. -/
theorem aFactor_triple (f g : VFlags) (h : flagsLe f g) :
    aFactor g ≤ aFactor f ∧ 0 ≤ aFactor g ∧ aFactor f ≤ 1 := by
  obtain ⟨-, -, -, -, -, -, -, -, h9, h10, h11, -, -, -⟩ := h
  unfold aFactor
  exact unitMul (unitMul
    (unitMul ⟨le_refl 1, by norm_num, by norm_num⟩
      (iteF_triple _ _ _ (by norm_num) (by norm_num) h9))
      (iteF_triple _ _ _ (by norm_num) (by norm_num) h10))
      (iteF_triple _ _ _ (by norm_num) (by norm_num) h11)

/-- The relevance sub-score shrinks pointwise with the flags and stays in
[0, 1]; the if/elif keeps it monotone even when both keyword flags move. -/
theorem rFactor_triple (f g : VFlags) (h : flagsLe f g) :
    rFactor g ≤ rFactor f ∧ 0 ≤ rFactor g ∧ rFactor f ≤ 1 := by
  obtain ⟨-, -, -, -, -, -, -, -, -, -, -, h12, h13, -⟩ := h
  unfold rFactor
  cases hfz : f.kwZero <;> cases hgz : g.kwZero <;>
    cases hfw : f.kwFew <;> cases hgw : g.kwFew <;>
    simp only [hfz, hgz, hfw, hgw, if_true, if_false, Bool.false_eq_true, Bool.true_eq_false] <;>
    first
      | (norm_num; done)
      | (have hcontra := h12 hfz; rw [hgz] at hcontra; exact Bool.noConfusion hcontra)
      | (have hcontra := h13 hfw; rw [hgw] at hcontra; exact Bool.noConfusion hcontra)

/-- The quality sub-score is the flag product (both sides compute the
same chain of conditional factors). -/
theorem quality_score_eq (c : ScrapedContent) :
    (_validate_content_quality c).score = qFactor (flagsOf c) := rfl

/-- The attribution sub-score is the flag product. -/
theorem attribution_score_eq (c : ScrapedContent) :
    (_validate_source_attribution c.source_attribution).score = aFactor (flagsOf c) := rfl

/-- The relevance sub-score is the flag product. -/
theorem relevance_score_eq (c : ScrapedContent) :
    (_validate_music_relevance c).score = rFactor (flagsOf c) := rfl

/-- Bridge: the composite validation score of a record equals the
product-of-factors score of its triggered condition flags. -/
theorem validate_score_eq_scoreFlags (c : ScrapedContent) :
    (validate_scraped_content c).score = scoreFlags (flagsOf c) := by
  show validate_score c = scoreFlags (flagsOf c)
  unfold validate_score scoreFlags
  rw [quality_score_eq, attribution_score_eq, relevance_score_eq]
  rfl

/-- The full score shrinks pointwise with the flags and stays in [0, 1]. -/
theorem scoreFlags_triple (f g : VFlags) (h : flagsLe f g) :
    scoreFlags g ≤ scoreFlags f ∧ 0 ≤ scoreFlags g ∧ scoreFlags f ≤ 1 := by
  unfold scoreFlags
  exact unitMul (unitMul (unitMul (unitMul
    (unitMul ⟨le_refl 1, by norm_num, by norm_num⟩
      (iteF_triple _ _ _ (by norm_num) (by norm_num) h.1))
      (qFactor_triple f g h))
      (aFactor_triple f g h))
      (rFactor_triple f g h))
      (iteF_triple _ _ _ (by norm_num) (by norm_num)
        h.2.2.2.2.2.2.2.2.2.2.2.2.2)

/-- C2: the single-record validation score is the product of one factor
per triggered condition — 0.3 for a structure failure; 0.3, 0.9, 0.5,
0.9, 0.2, 0.8, 0.9 for the quality conditions; 0.9 for each attribution
warning; 0.5 or 0.8 for relevance; 0.2 for a lake-compatibility failure —
each factor lying in [0, 1]; consequently triggering additional
conditions (all others unchanged) can only keep or lower the score,
never raise it. The nonempty-content hypothesis keeps the bridge on
the domain where the source returns a score at all. -/
theorem validator_multiplicative_monotonicity :
    (∀ c : ScrapedContent, c.content ≠ "" →
      (validate_scraped_content c).score = scoreFlags (flagsOf c)) ∧
    (∀ f : VFlags, 0 ≤ scoreFlags f ∧ scoreFlags f ≤ 1) ∧
    (∀ f g : VFlags, flagsLe f g → scoreFlags g ≤ scoreFlags f) := by
  refine ⟨fun c _ => validate_score_eq_scoreFlags c, fun f => ?_,
    fun f g h => (scoreFlags_triple f g h).1⟩
  have hrefl : flagsLe f f :=
    ⟨fun x => x, fun x => x, fun x => x, fun x => x, fun x => x, fun x => x, fun x => x,
     fun x => x, fun x => x, fun x => x, fun x => x, fun x => x, fun x => x, fun x => x⟩
  exact ⟨(scoreFlags_triple f f hrefl).2.1, (scoreFlags_triple f f hrefl).2.2⟩

/-- Witness for C2: the bridge on a concrete record, the bounds on
concrete flags, and monotonicity across one added condition. -/
theorem validator_multiplicative_monotonicity_witness :
    (validate_scraped_content goodRecord).score = scoreFlags (flagsOf goodRecord) ∧
    (0 ≤ scoreFlags wFlagsLo ∧ scoreFlags wFlagsLo ≤ 1) ∧
    scoreFlags wFlagsHi ≤ scoreFlags wFlagsLo :=
  ⟨validator_multiplicative_monotonicity.1 goodRecord (by decide),
   validator_multiplicative_monotonicity.2.1 wFlagsLo,
   validator_multiplicative_monotonicity.2.2 wFlagsLo wFlagsHi (by decide)⟩

/-- With the suspicious flag up, the quality score is the other factors
times one application of 0.2. -/
theorem qFactor_suspicious (f : VFlags) (hs : f.suspicious = true) :
    qFactor f = qFactorSansSusp f * (1/5) := by
  unfold qFactor qFactorSansSusp
  rw [hs]
  simp only [iteF, if_true]
  ring

/-- C10: when the body matches at least one suspicious pattern, the
quality check records exactly one suspicious-pattern error — the one for
the first matching pattern in the fixed list — and multiplies the 0.2
factor exactly once: the quality score and the suspicious error count do
not depend on how many further patterns also match. -/
theorem suspicious_pattern_counted_once (c : ScrapedContent)
    (h : ∃ p ∈ suspicious_patterns, regexMatches p (pyLower c.content) = true) :
    ∃ p, suspicious_patterns.find? (fun q => regexMatches q (pyLower c.content)) = some p ∧
      (_validate_content_quality c).errors.filter isSuspMsg =
        ["Suspicious content pattern detected: " ++ p.src] ∧
      (_validate_content_quality c).score = qFactorSansSusp (flagsOf c) * (1/5) := by
  have hsome :
      (suspicious_patterns.find? fun q => regexMatches q (pyLower c.content)).isSome = true := by
    rw [List.find?_isSome]
    simpa using h
  obtain ⟨p, hp⟩ := Option.isSome_iff_exists.mp hsome
  have herr0 : (_validate_content_quality c).errors =
      (if decide (c.content.length < 200) = true then
        ["Content too short: " ++ toString c.content.length ++ " chars (min: 200)"]
       else []) ++
      (if decide (c.title.length < 5) = true then
        ["Title too short: " ++ toString c.title.length ++ " chars"]
       else []) ++
      (match suspicious_patterns.find? fun q => regexMatches q (pyLower c.content) with
       | some q => ["Suspicious content pattern detected: " ++ q.src]
       | none => []) := rfl
  have hm1 : isSuspMsg ("Content too short: " ++ toString c.content.length ++
      " chars (min: 200)") = false := rfl
  have hm2 : isSuspMsg ("Title too short: " ++ toString c.title.length ++
      " chars") = false := rfl
  have hm3 : isSuspMsg ("Suspicious content pattern detected: " ++ p.src) = true := rfl
  refine ⟨p, hp, ?_, ?_⟩
  · rw [herr0, hp]
    rw [List.filter_append, List.filter_append]
    split_ifs <;>
      simp [List.filter, hm1, hm2, hm3]
  · rw [quality_score_eq]
    have hflag : (flagsOf c).suspicious = true := by
      show (suspicious_patterns.find? fun q => regexMatches q (pyLower c.content)).isSome = true
      rw [hp]
      rfl
    exact qFactor_suspicious (flagsOf c) hflag

/-- Witness for C10: the quality check on a record whose body matches two
patterns (captcha and cloudflare) records one suspicious error, for
captcha, the earlier in the list. -/
theorem suspicious_pattern_counted_once_witness :
    (∃ p ∈ suspicious_patterns,
      regexMatches p (pyLower { goodRecord with
        content := "a captcha and cloudflare wall" }.content) = true) ∧
    ∃ p, suspicious_patterns.find? (fun q => regexMatches q
        (pyLower { goodRecord with content := "a captcha and cloudflare wall" }.content)) =
        some p ∧
      (_validate_content_quality { goodRecord with
        content := "a captcha and cloudflare wall" }).errors.filter isSuspMsg =
        ["Suspicious content pattern detected: " ++ p.src] ∧
      (_validate_content_quality { goodRecord with
        content := "a captcha and cloudflare wall" }).score =
        qFactorSansSusp (flagsOf { goodRecord with
          content := "a captcha and cloudflare wall" }) * (1/5) :=
  ⟨by decide,
   suspicious_pattern_counted_once
     { goodRecord with content := "a captcha and cloudflare wall" } (by decide)⟩
